import Mathlib

/-!
Verification of the lightshot-gallery-downloader download pipeline.

Shallow embedding of the concurrency limiter (src/shared/throttler.ts),
the metadata collector (src/domain/lightshotClient.ts), the retrying
fetcher and orchestrator (src/background/downloadService.ts), and the
message normalization in the background entry point
(src/background/index.ts).
-/

namespace LightshotGallery

/-! ## Concurrency limiter — src/shared/throttler.ts, createThrottler

The limiter is modelled as a state machine.  Submitted tasks are given
consecutive ids (0, 1, 2, ...) in submission order.  The state mirrors the
closure state of createThrottler: activeCount and the FIFO queue, plus
ghost history fields recording which tasks have been started (in start
order) and which have fully settled. -/

structure ThrottlerState where
  maxConcurrency : Nat
  activeCount : Nat
  /-- Ids of submitted but not-yet-started tasks, front = oldest (the queue array). -/
  queue : List Nat
  /-- Ids of started tasks, in the order `next()` started them (ghost history). -/
  started : List Nat
  /-- Ids of tasks whose promise has settled, in settle order (ghost history). -/
  settled : List Nat
  /-- Next fresh submission id (ghost). -/
  nextId : Nat
deriving Repr, DecidableEq

/-- Mirrors `next()` (throttler.ts lines 11-23): if capacity remains and the
queue is non-empty, shift the queue head, bump activeCount and start it. -/
def tnext (s : ThrottlerState) : ThrottlerState :=
  if s.maxConcurrency ≤ s.activeCount then s
  else
    match s.queue with
    | [] => s
    | t :: rest =>
        { s with activeCount := s.activeCount + 1
                 queue := rest
                 started := s.started ++ [t] }

/-- Mirrors `enqueue` (lines 25-40): push the wrapped task onto the queue,
then call `next()`. -/
def tenqueue (s : ThrottlerState) : ThrottlerState :=
  tnext { s with queue := s.queue ++ [s.nextId], nextId := s.nextId + 1 }

/-- Mirrors a task settling (the `.finally` callback, lines 31-34): decrement
activeCount, record the task as settled, then call `next()`.  Only a task
that is currently executing (started, not yet settled) can settle. -/
def tsettle (s : ThrottlerState) (i : Nat) : ThrottlerState :=
  if i ∈ s.started ∧ i ∉ s.settled then
    tnext { s with activeCount := s.activeCount - 1, settled := s.settled ++ [i] }
  else s

/-- Externally visible events of one throttler: a submission, or the
settling (fulfilment or rejection) of a running task. -/
inductive TEvent
  | submit
  | settle (i : Nat)
deriving Repr, DecidableEq

def tstep (s : ThrottlerState) : TEvent → ThrottlerState
  | .submit => tenqueue s
  | .settle i => tsettle s i

/-- Initial closure state of `createThrottler n`. -/
def tinit (n : Nat) : ThrottlerState :=
  { maxConcurrency := n, activeCount := 0, queue := [], started := [], settled := [], nextId := 0 }

/-- State after an arbitrary event trace. -/
def trun (n : Nat) (es : List TEvent) : ThrottlerState :=
  es.foldl tstep (tinit n)

/-- Invariant of every reachable throttler state. -/
structure TInv (s : ThrottlerState) : Prop where
  hq : s.started ++ s.queue = List.range s.nextId
  hact : s.activeCount + s.settled.length = s.started.length
  hle : s.activeCount ≤ s.maxConcurrency
  hfull : s.queue ≠ [] → s.activeCount = s.maxConcurrency
  hsub : s.settled ⊆ s.started
  hnd : s.settled.Nodup

theorem tinit_inv (n : Nat) : TInv (tinit n) := by
  constructor <;> simp [tinit]

theorem tnext_of_full {s : ThrottlerState} (h : s.maxConcurrency ≤ s.activeCount) :
    tnext s = s := by
  unfold tnext
  rw [if_pos h]

theorem tnext_of_nil {s : ThrottlerState} (h : s.queue = []) : tnext s = s := by
  unfold tnext
  split
  · rfl
  · rw [h]

theorem tnext_start {s : ThrottlerState} {q : Nat} {rest : List Nat}
    (hcap : s.activeCount < s.maxConcurrency) (hq : s.queue = q :: rest) :
    tnext s = { s with activeCount := s.activeCount + 1
                       queue := rest
                       started := s.started ++ [q] } := by
  unfold tnext
  rw [if_neg (by omega), hq]

theorem TInv.started_nodup {s : ThrottlerState} (h : TInv s) : s.started.Nodup := by
  have := h.hq ▸ (List.nodup_range (n := s.nextId))
  exact (List.nodup_append.mp this).1

theorem TInv.settled_snoc {s : ThrottlerState} (h : TInv s) {i : Nat}
    (hi : i ∈ s.started) (hni : i ∉ s.settled) :
    s.settled ++ [i] ⊆ s.started ∧ (s.settled ++ [i]).Nodup := by
  constructor
  · intro x hx
    rcases List.mem_append.mp hx with hx | hx
    · exact h.hsub hx
    · simp at hx; subst hx; exact hi
  · refine List.nodup_append.mpr ⟨h.hnd, List.nodup_singleton i, ?_⟩
    intro a ha hb
    simp at hb; subst hb
    exact hni ha

theorem TInv.active_pos {s : ThrottlerState} (h : TInv s) {i : Nat}
    (hi : i ∈ s.started) (hni : i ∉ s.settled) : 1 ≤ s.activeCount := by
  obtain ⟨hsub2, hnd2⟩ := h.settled_snoc hi hni
  have hlen : (s.settled ++ [i]).length ≤ s.started.length :=
    (hnd2.subperm hsub2).length_le
  have hact := h.hact
  simp at hlen
  omega

theorem tenqueue_inv {s : ThrottlerState} (h : TInv s) : TInv (tenqueue s) := by
  have hact := h.hact
  have hle := h.hle
  have hq0 := h.hq
  have hq2 : s.started ++ (s.queue ++ [s.nextId]) = List.range (s.nextId + 1) := by
    rw [List.range_succ, ← h.hq, List.append_assoc]
  unfold tenqueue
  by_cases hcap : s.maxConcurrency ≤ s.activeCount
  · rw [tnext_of_full (by simpa using hcap)]
    have hev : s.activeCount = s.maxConcurrency := le_antisymm h.hle hcap
    exact ⟨hq2, h.hact, h.hle, fun _ => hev, h.hsub, h.hnd⟩
  · cases hqe : s.queue with
    | nil =>
        rw [tnext_start (by simpa using by omega)
          (show ([] : List Nat) ++ [s.nextId] = s.nextId :: [] from by simp)]
        rw [hqe] at hq2
        refine ⟨?_, ?_, ?_, ?_, ?_, ?_⟩
        · simpa using hq2
        · simp; omega
        · simp; omega
        · intro hne; simp at hne
        · intro x hx; exact List.mem_append_left _ (h.hsub hx)
        · exact h.hnd
    | cons q rest =>
        have := h.hfull (by simp [hqe])
        omega

theorem tsettle_inv {s : ThrottlerState} (h : TInv s) (i : Nat) : TInv (tsettle s i) := by
  unfold tsettle
  by_cases hrun : i ∈ s.started ∧ i ∉ s.settled
  · rw [if_pos hrun]
    have hact := h.hact
    have hle := h.hle
    have hq0 := h.hq
    have hpos : 1 ≤ s.activeCount := h.active_pos hrun.1 hrun.2
    obtain ⟨hsub2, hnd2⟩ := h.settled_snoc hrun.1 hrun.2
    cases hqe : s.queue with
    | nil =>
        rw [tnext_of_nil (by simp)]
        rw [hqe] at hq0
        refine ⟨by simpa using hq0, ?_, ?_, ?_, hsub2, hnd2⟩
        · simp; omega
        · simp; omega
        · intro hne; simp at hne
    | cons q rest =>
        have hev : s.activeCount = s.maxConcurrency := h.hfull (by simp [hqe])
        rw [hqe] at hq0
        rw [tnext_start (by simp; omega) rfl]
        refine ⟨?_, ?_, ?_, ?_, ?_, hnd2⟩
        · simp only
          rw [List.append_assoc]
          simpa using hq0
        · simp; omega
        · simp; omega
        · intro _; simp; omega
        · intro x hx; exact List.mem_append_left _ (hsub2 hx)
  · rw [if_neg hrun]
    exact h

theorem tstep_inv {s : ThrottlerState} (h : TInv s) (e : TEvent) : TInv (tstep s e) := by
  cases e with
  | submit => exact tenqueue_inv h
  | settle i => exact tsettle_inv h i

theorem trun_inv (n : Nat) (es : List TEvent) : TInv (trun n es) := by
  unfold trun
  induction es using List.reverseRecOn with
  | nil => exact tinit_inv n
  | append_singleton es e ih =>
      rw [List.foldl_append]
      exact tstep_inv ih e

theorem tnext_max (s : ThrottlerState) : (tnext s).maxConcurrency = s.maxConcurrency := by
  unfold tnext
  split
  · rfl
  · split <;> rfl

theorem tenqueue_max (s : ThrottlerState) : (tenqueue s).maxConcurrency = s.maxConcurrency := by
  unfold tenqueue
  rw [tnext_max]

theorem tsettle_max (s : ThrottlerState) (i : Nat) :
    (tsettle s i).maxConcurrency = s.maxConcurrency := by
  unfold tsettle
  split
  · rw [tnext_max]
  · rfl

theorem trun_max (n : Nat) (es : List TEvent) : (trun n es).maxConcurrency = n := by
  unfold trun
  induction es using List.reverseRecOn with
  | nil => rfl
  | append_singleton es e ih =>
      rw [List.foldl_append]
      cases e with
      | submit => simpa [tstep, tenqueue_max] using ih
      | settle i => simpa [tstep, tsettle_max] using ih

theorem tenqueue_active_mono (s : ThrottlerState) :
    s.activeCount ≤ (tenqueue s).activeCount := by
  unfold tenqueue tnext
  split
  · simp
  · split
    · simp
    · simp

theorem TInv.started_range {s : ThrottlerState} (h : TInv s) :
    s.started = List.range s.started.length := by
  have hlen : s.started.length + s.queue.length = s.nextId := by
    have := congrArg List.length h.hq
    simpa using this
  have htake : (s.started ++ s.queue).take s.started.length = s.started :=
    List.take_left _ _
  rw [h.hq] at htake
  calc s.started = (List.range s.nextId).take s.started.length := htake.symm
    _ = List.range (min s.started.length s.nextId) := List.take_range _ _
    _ = List.range s.started.length := by rw [Nat.min_eq_left (by omega)]

/-- Claim C1: for every capacity N ≥ 1 and every event trace, the limiter
created by createThrottler never has more than N units executing
simultaneously (activeCount, which counts started-but-unsettled units,
stays at most N), units are started strictly in submission order (the
start history is always the initial segment 0, 1, ... of the submission
ids), a submission never releases a capacity slot, and when a running
unit settles while the queue is non-empty, the queue head is admitted
immediately by that same settle step. -/
theorem createThrottler_bound_and_fifo (n : Nat) (hn : 1 ≤ n) (es : List TEvent) :
    ((trun n es).activeCount + (trun n es).settled.length = (trun n es).started.length ∧
      (trun n es).activeCount ≤ n) ∧
    (trun n es).started = List.range (trun n es).started.length ∧
    (trun n es).activeCount ≤ (tenqueue (trun n es)).activeCount ∧
    (∀ i q rest, (trun n es).queue = q :: rest →
      i ∈ (trun n es).started → i ∉ (trun n es).settled →
      (tsettle (trun n es) i).started = (trun n es).started ++ [q] ∧
      (tsettle (trun n es) i).queue = rest ∧
      (tsettle (trun n es) i).settled = (trun n es).settled ++ [i]) := by
  have h := trun_inv n es
  have hmax := trun_max n es
  refine ⟨⟨h.hact, by have := h.hle; omega⟩, h.started_range, tenqueue_active_mono _, ?_⟩
  intro i q rest hq hi hni
  have hfull : (trun n es).activeCount = (trun n es).maxConcurrency :=
    h.hfull (by rw [hq]; simp)
  have hpos : 1 ≤ (trun n es).activeCount := h.active_pos hi hni
  unfold tsettle
  rw [if_pos ⟨hi, hni⟩]
  have hstep := tnext_start
    (s := { trun n es with activeCount := (trun n es).activeCount - 1
                           settled := (trun n es).settled ++ [i] })
    (by simp; omega) (show _ = q :: rest from hq)
  rw [hstep]
  exact ⟨rfl, rfl, rfl⟩

/-- Witness for C1: a concrete trace with capacity 2 and three
submissions, then the settling of task 0 admitting the queued task 2. -/
theorem createThrottler_bound_and_fifo_witness :
    (trun 2 [TEvent.submit, TEvent.submit, TEvent.submit]).activeCount ≤ 2 ∧
    (tsettle (trun 2 [TEvent.submit, TEvent.submit, TEvent.submit]) 0).started =
      (trun 2 [TEvent.submit, TEvent.submit, TEvent.submit]).started ++ [2] :=
  ⟨(createThrottler_bound_and_fifo 2 (by decide) [TEvent.submit, TEvent.submit, TEvent.submit]).1.2,
    ((createThrottler_bound_and_fifo 2 (by decide)
        [TEvent.submit, TEvent.submit, TEvent.submit]).2.2.2 0 2 []
      (by decide) (by decide) (by decide)).1⟩

/-! ## Metadata collector — src/domain/lightshotClient.ts

The JSON response shape (type LightshotResponse, lines 20-50) is embedded
with Option fields for optional members; JS `a ?? b` becomes `a <|> b`
and `o?.f` becomes `o.bind f`. -/

/-- One raw screen record of a response page (LightshotScreenPayload).
The date member comes from the loose index signature; it is recorded here
when the payload carries a string date. -/
structure RawScreen where
  id36 : String
  url : String
  date : Option String
deriving Repr, DecidableEq

/-- Normalized screen metadata (interface ScreenMeta, lines 52-59). -/
structure ScreenMeta where
  id36 : String
  url : String
  date : String
deriving Repr, DecidableEq

/-- The fields probed under result.data (lines 31-38). -/
structure DataField where
  screens : Option (List RawScreen)
  items : Option (List RawScreen)
  next_id36 : Option String
  next_cursor : Option String
  next_token : Option String
  next : Option String
deriving Repr, DecidableEq

/-- The fields under result (lines 22-39). -/
structure ResultField where
  success : Option Bool
  screens : Option (List RawScreen)
  items : Option (List RawScreen)
  next_id36 : Option String
  next_cursor : Option String
  next_token : Option String
  next : Option String
  message : Option String
  data : Option DataField
deriving Repr, DecidableEq

/-- The error member (lines 40-43). -/
structure ErrorField where
  message : Option String
  code : Option Int
deriving Repr, DecidableEq

/-- The whole response (type LightshotResponse, lines 20-50). -/
structure LightshotResponse where
  success : Option Bool
  result : Option ResultField
  error : Option ErrorField
  screens : Option (List RawScreen)
  items : Option (List RawScreen)
  next_id36 : Option String
  next_cursor : Option String
  next_token : Option String
  next : Option String
deriving Repr, DecidableEq

/-- `json.result ?? {}` (line 100). -/
def emptyResultField : ResultField :=
  { success := none, screens := none, items := none, next_id36 := none,
    next_cursor := none, next_token := none, next := none, message := none, data := none }

/-- fetchPage lines 101-108: probe for the item list. -/
def candidateScreens (json : LightshotResponse) : List RawScreen :=
  let result := json.result.getD emptyResultField
  (result.screens <|> result.items <|>
    (result.data.bind DataField.screens) <|> (result.data.bind DataField.items) <|>
    json.screens <|> json.items).getD []

/-- fetchPage line 110: `result.success ?? json.success`. -/
def successFlag (json : LightshotResponse) : Option Bool :=
  let result := json.result.getD emptyResultField
  result.success <|> json.success

/-- fetchPage lines 120-123: the message of a logically failing page. -/
def failureMessage (json : LightshotResponse) : String :=
  let result := json.result.getD emptyResultField
  (result.message <|> (json.error.bind ErrorField.message)).getD "Unexpected Lightshot response"

/-- fetchPage lines 135-147: probe for the continuation cursor. -/
def candidateCursor (json : LightshotResponse) : Option String :=
  let result := json.result.getD emptyResultField
  result.next_id36 <|> result.next_cursor <|> result.next_token <|> result.next <|>
    (result.data.bind DataField.next_id36) <|> (result.data.bind DataField.next_cursor) <|>
    (result.data.bind DataField.next_token) <|> (result.data.bind DataField.next) <|>
    json.next_id36 <|> json.next_cursor <|> json.next_token <|> json.next

/-- fetchPage lines 127-131: normalization of one raw screen record; the
today argument stands for the ambient current date used when the payload
has no string date. -/
def normalizeScreen (today : String) (s : RawScreen) : ScreenMeta :=
  { id36 := s.id36, url := s.url, date := s.date.getD today }

/-- interface FetchScreensResult (lines 61-64). -/
structure FetchScreensResult where
  screens : List ScreenMeta
  nextCursor : Option String
deriving Repr, DecidableEq

/-- The response-normalization part of fetchPage (lines 100-148), after
the HTTP status check and the JSON parse. -/
def fetchPage (today : String) (json : LightshotResponse) :
    Except String FetchScreensResult :=
  if successFlag json = some false ∧ (candidateScreens json).length = 0 then
    Except.ok { screens := [], nextCursor := none }
  else if successFlag json = some false then
    Except.error (failureMessage json)
  else
    Except.ok { screens := (candidateScreens json).map (normalizeScreen today),
                nextCursor := candidateCursor json }

/-- Claim C6 (amended): when the success flag is explicitly false, a page
with zero normalized items is returned as an empty successful page
(end of data), while a page with a non-empty item list raises a
descriptive error rather than being returned as data. -/
theorem fetchPage_success_false (today : String) (json : LightshotResponse)
    (h : successFlag json = some false) :
    (candidateScreens json = [] →
      fetchPage today json = Except.ok { screens := [], nextCursor := none }) ∧
    (candidateScreens json ≠ [] →
      fetchPage today json = Except.error (failureMessage json)) := by
  constructor
  · intro he
    unfold fetchPage
    rw [if_pos ⟨h, by simp [he]⟩]
  · intro hne
    unfold fetchPage
    rw [if_neg ?_, if_pos h]
    intro hand
    exact hne (List.length_eq_zero.mp hand.2)

/-- Sample screen records for the concrete responses below. -/
def screenA : RawScreen := { id36 := "a1", url := "https://img/a1.png", date := none }

def screenB : RawScreen := { id36 := "b2", url := "https://img/b2.png", date := none }

/-- A response whose success flag is explicitly false while the item list
is non-empty. -/
def respFalseWithItems : LightshotResponse :=
  { success := none,
    result := some { emptyResultField with
                       success := some false
                       screens := some [screenA]
                       message := some "listing failed" },
    error := none, screens := none, items := none,
    next_id36 := none, next_cursor := none, next_token := none, next := none }

/-- Counterexample to C6 as stated: on a response with success explicitly
false and a non-empty item list, fetchPage raises an error instead of
returning the items as a successful page. -/
theorem fetchPage_success_false_with_items_errors :
    candidateScreens respFalseWithItems = [screenA] ∧
    fetchPage "2026-01-01" respFalseWithItems = Except.error "listing failed" :=
  ⟨rfl, rfl⟩

/-- Witness for the amended C6 at concrete inputs: the same response with
items errors, and with the items removed an empty page is returned. -/
theorem fetchPage_success_false_witness :
    fetchPage "2026-01-01" respFalseWithItems = Except.error "listing failed" ∧
    fetchPage "2026-01-01"
        { respFalseWithItems with
            result := some { emptyResultField with success := some false } } =
      Except.ok { screens := [], nextCursor := none } :=
  ⟨(fetchPage_success_false "2026-01-01" respFalseWithItems rfl).2 (by decide),
    (fetchPage_success_false "2026-01-01"
        { respFalseWithItems with
            result := some { emptyResultField with success := some false } } rfl).1 rfl⟩

/-- Probe three nesting levels of the response in a fixed priority
order; the first level holding a value wins. -/
def levelProbe {α : Type} (resultLevel dataLevel topLevel : Option α) : Option α :=
  resultLevel <|> dataLevel <|> topLevel

/-- The item-list probe phrased per nesting level, with the
result-nested fields first, then the result.data-nested fields, then the
top-level fields. -/
def levelCandidateScreens (json : LightshotResponse) : List RawScreen :=
  let result := json.result.getD emptyResultField
  (levelProbe (result.screens <|> result.items)
      ((result.data.bind DataField.screens) <|> (result.data.bind DataField.items))
      (json.screens <|> json.items)).getD []

/-- The cursor probe phrased per nesting level, in the same level order
as the item-list probe. -/
def levelCandidateCursor (json : LightshotResponse) : Option String :=
  let result := json.result.getD emptyResultField
  levelProbe
    (result.next_id36 <|> result.next_cursor <|> result.next_token <|> result.next)
    ((result.data.bind DataField.next_id36) <|> (result.data.bind DataField.next_cursor) <|>
      (result.data.bind DataField.next_token) <|> (result.data.bind DataField.next))
    (json.next_id36 <|> json.next_cursor <|> json.next_token <|> json.next)

theorem option_orElse_assoc {α : Type} (a b c : Option α) :
    ((a <|> b) <|> c) = (a <|> (b <|> c)) := by
  cases a <;> rfl

/-- Claim C7 (amended): fetchPage probes the nesting levels in the
priority order result first, then result.data, then top-level — not
top-level first — and the same level order governs both the item list
and the continuation cursor. -/
theorem fetchPage_probe_levels (json : LightshotResponse) :
    candidateScreens json = levelCandidateScreens json ∧
    candidateCursor json = levelCandidateCursor json := by
  constructor
  · simp only [candidateScreens, levelCandidateScreens, levelProbe, option_orElse_assoc]
  · simp only [candidateCursor, levelCandidateCursor, levelProbe, option_orElse_assoc]

/-- A response carrying one item list at the top level and a different
one nested under result. -/
def respTopAndResult : LightshotResponse :=
  { success := some true,
    result := some { emptyResultField with screens := some [screenB] },
    error := none, screens := some [screenA], items := none,
    next_id36 := none, next_cursor := none, next_token := none, next := none }

/-- Counterexample to C7 as stated: with an item list both at the top
level and under result, fetchPage returns the result-nested list, not
the top-level one the claimed direct-field-first order would select. -/
theorem fetchPage_probe_order_counterexample :
    candidateScreens respTopAndResult = [screenB] ∧
    screenB ≠ screenA ∧
    fetchPage "2026-01-01" respTopAndResult =
      Except.ok { screens := [normalizeScreen "2026-01-01" screenB], nextCursor := none } :=
  ⟨rfl, by decide, rfl⟩

/-- The while loop of getAllScreens (lines 151-180).  The remote is
modelled as the sequence of fetchPage outcomes the loop would observe,
one per iteration; `aborted k` is the value of signal?.aborted read at
the top of iteration k.  An exhausted script models an unreachable
network request and yields an error, like a rejecting fetch would. -/
def getAllScreensGo (aborted : Nat → Bool)
    (pages : List (Except String FetchScreensResult)) (k : Nat) (cursor : String)
    (acc : List ScreenMeta) : Except String (List ScreenMeta) :=
  if aborted k then Except.ok acc
  else
    match pages with
    | [] => Except.error "no response"
    | Except.error e :: _ => Except.error e
    | Except.ok page :: rest =>
      if page.screens.isEmpty then Except.ok acc
      else
        match page.nextCursor with
        | none =>
          match page.screens.getLast? with
          | none => Except.ok (acc ++ page.screens)
          | some last =>
            if last.id36 = cursor then Except.ok (acc ++ page.screens)
            else getAllScreensGo aborted rest (k + 1) last.id36 (acc ++ page.screens)
        | some nc =>
          if nc = cursor then Except.ok (acc ++ page.screens)
          else getAllScreensGo aborted rest (k + 1) nc (acc ++ page.screens)

/-- getAllScreens starts from cursor "0" with an empty accumulator. -/
def getAllScreens (aborted : Nat → Bool)
    (pages : List (Except String FetchScreensResult)) : Except String (List ScreenMeta) :=
  getAllScreensGo aborted pages 0 "0" []

/-- Claim C5: getAllScreens stops iterating and returns the items
accumulated so far at the first iteration where, checked in this order:
cancellation has been observed (no error raised); the fetched page has
zero items (returning the earlier items only); no continuation cursor is
present and the last item id of the page equals the current cursor
(otherwise that id becomes the next cursor); or the returned cursor
equals the current cursor. -/
theorem getAllScreens_stop_conditions (aborted : Nat → Bool)
    (pages : List (Except String FetchScreensResult)) (k : Nat) (cursor : String)
    (acc : List ScreenMeta) :
    (aborted k = true → getAllScreensGo aborted pages k cursor acc = Except.ok acc) ∧
    (aborted k = false →
      ∀ page rest, pages = Except.ok page :: rest →
        (page.screens = [] → getAllScreensGo aborted pages k cursor acc = Except.ok acc) ∧
        (page.screens ≠ [] →
          (∀ last, page.nextCursor = none → page.screens.getLast? = some last →
            (last.id36 = cursor →
              getAllScreensGo aborted pages k cursor acc = Except.ok (acc ++ page.screens)) ∧
            (last.id36 ≠ cursor →
              getAllScreensGo aborted pages k cursor acc =
                getAllScreensGo aborted rest (k + 1) last.id36 (acc ++ page.screens))) ∧
          (∀ nc, page.nextCursor = some nc →
            (nc = cursor →
              getAllScreensGo aborted pages k cursor acc = Except.ok (acc ++ page.screens)) ∧
            (nc ≠ cursor →
              getAllScreensGo aborted pages k cursor acc =
                getAllScreensGo aborted rest (k + 1) nc (acc ++ page.screens))))) := by
  constructor
  · intro ha
    unfold getAllScreensGo
    rw [if_pos ha]
  · intro ha page rest hp
    subst hp
    refine ⟨?_, ?_⟩
    · intro hz
      unfold getAllScreensGo
      rw [if_neg (by simp [ha])]
      simp [hz]
    · intro hnz
      refine ⟨?_, ?_⟩
      · intro last hnone hlast
        constructor
        · intro heq
          unfold getAllScreensGo
          rw [if_neg (by simp [ha])]
          simp [hnz, hnone, hlast, heq]
        · intro hneq
          conv_lhs => unfold getAllScreensGo
          rw [if_neg (by simp [ha])]
          simp [hnz, hnone, hlast, hneq]
      · intro nc hnc
        constructor
        · intro heq
          unfold getAllScreensGo
          rw [if_neg (by simp [ha])]
          simp [hnz, hnc, heq]
        · intro hneq
          conv_lhs => unfold getAllScreensGo
          rw [if_neg (by simp [ha])]
          simp [hnz, hnc, hneq]

/-- Witness for C5 at concrete inputs: an aborted run returns what was
accumulated, and a page with zero items ends the collection. -/
theorem getAllScreens_stop_conditions_witness :
    getAllScreensGo (fun _ => true) [] 0 "0" [] = Except.ok [] ∧
    getAllScreensGo (fun _ => false)
        [Except.ok { screens := [], nextCursor := none }] 0 "0" [] = Except.ok [] :=
  ⟨(getAllScreens_stop_conditions (fun _ => true) [] 0 "0" []).1 rfl,
    ((getAllScreens_stop_conditions (fun _ => false)
        [Except.ok { screens := [], nextCursor := none }] 0 "0" []).2 rfl
      { screens := [], nextCursor := none } [] rfl).1 rfl⟩

/-! ## Retrying fetcher — src/background/downloadService.ts,
downloadWithRetry (lines 245-334)

The network is modelled by an oracle giving the outcome of each fetch
attempt; the abort signal by an oracle read where the loop reads it. -/

/-- Outcome of one fetch attempt as observed by downloadWithRetry: a
successful response, a non-ok HTTP status with the optional structured
code of the JSON body, or a transport failure. -/
inductive FetchOutcome
  | ok
  | httpError (status : Nat) (code : Option String)
  | networkError (message : String)
deriving Repr, DecidableEq

/-- The classified per-attempt error. -/
inductive ErrClass
  | accountTrouble (id36 : String)
  | fetchFailed (id36 : String) (status : Nat)
  | network (message : String)
deriving Repr, DecidableEq

/-- Lines 271-288: a 403 whose JSON body carries code account_trouble is
thrown as NonRetryableError; any other non-ok response as the generic
fetch failure. -/
def classifyHttp (id36 : String) (status : Nat) (code : Option String) : ErrClass :=
  if status = 403 ∧ code = some "account_trouble" then ErrClass.accountTrouble id36
  else ErrClass.fetchFailed id36 status

/-- Line 310: NonRetryableError (retryable = false) is exactly the
account-trouble classification. -/
def ErrClass.nonRetryable : ErrClass → Bool
  | .accountTrouble _ => true
  | .fetchFailed _ _ => false
  | .network _ => false

/-- The error message strings the source builds (lines 282-288). -/
def ErrClass.message : ErrClass → String
  | .accountTrouble id36 =>
      "Lightshot cannot serve " ++ id36 ++
        ": upstream returned account trouble (image missing on server)."
  | .fetchFailed id36 status =>
      "Failed to fetch " ++ id36 ++ " (" ++ toString status ++ ")"
  | .network m => m

/-- The error a fetch outcome raises inside the try block, if any. -/
def outcomeError (id36 : String) : FetchOutcome → Option ErrClass
  | .ok => none
  | .httpError status code => some (classifyHttp id36 status code)
  | .networkError m => some (ErrClass.network m)

/-- An outcome the retry loop treats as retryable. -/
def transientOutcome (id36 : String) (o : FetchOutcome) : Bool :=
  match outcomeError id36 o with
  | none => false
  | some e => !e.nonRetryable

/-- The warn-level log lines the fetcher emits (lines 315-327). -/
inductive RetryLog
  | retryWarn (attempt retryAttempts : Nat) (id36 : String) (err : ErrClass)
  | finalFailure (id36 : String) (err : ErrClass)
deriving Repr, DecidableEq

/-- Observable behaviour of one downloadWithRetry call: its returned
boolean, whether it threw on the abort signal, how many fetch attempts it
made, the backoff waits it performed in order, the post-success throttle
wait if any, and the warn logs it sent. -/
structure RetryOutcome where
  success : Bool
  sawAbort : Bool
  attemptsMade : Nat
  backoffWaits : List Nat
  throttleWait : Option Nat
  logs : List RetryLog
deriving Repr, DecidableEq

/-- The retry loop (lines 262-333) at a given attempt counter; the fuel
is the number of remaining loop iterations (retryAttempts + 1 - attempt),
and running out of fuel is the `return false` after the loop (line 333). -/
def goRetry (aborted : Nat → Bool) (fetchResult : Nat → FetchOutcome) (id36 : String)
    (retryAttempts retryBaseDelayMs throttleDelayMs attempt : Nat) :
    Nat → RetryOutcome
  | 0 =>
    { success := false, sawAbort := false, attemptsMade := 0, backoffWaits := [],
      throttleWait := none, logs := [] }
  | fuel + 1 =>
    if aborted attempt then
      { success := false, sawAbort := true, attemptsMade := 0, backoffWaits := [],
        throttleWait := none, logs := [] }
    else
      match outcomeError id36 (fetchResult attempt) with
      | none =>
        { success := true, sawAbort := false, attemptsMade := 1, backoffWaits := [],
          throttleWait := if 0 < throttleDelayMs then some throttleDelayMs else none,
          logs := [] }
      | some err =>
        if attempt < retryAttempts ∧ err.nonRetryable = false then
          let r := goRetry aborted fetchResult id36 retryAttempts retryBaseDelayMs
            throttleDelayMs (attempt + 1) fuel
          { r with attemptsMade := r.attemptsMade + 1
                   backoffWaits := retryBaseDelayMs * 2 ^ (attempt - 1) :: r.backoffWaits
                   logs := RetryLog.retryWarn attempt retryAttempts id36 err :: r.logs }
        else
          { success := false, sawAbort := false, attemptsMade := 1, backoffWaits := [],
            throttleWait := none, logs := [RetryLog.finalFailure id36 err] }

/-- downloadWithRetry: the loop starts at attempt 1 and runs at most
retryAttempts iterations. -/
def downloadWithRetry (aborted : Nat → Bool) (fetchResult : Nat → FetchOutcome)
    (id36 : String) (retryAttempts retryBaseDelayMs throttleDelayMs : Nat) : RetryOutcome :=
  goRetry aborted fetchResult id36 retryAttempts retryBaseDelayMs throttleDelayMs 1
    retryAttempts

theorem goRetry_attempts_le (aborted : Nat → Bool) (fetchResult : Nat → FetchOutcome)
    (id36 : String) (ra base throttle : Nat) :
    ∀ fuel attempt,
      (goRetry aborted fetchResult id36 ra base throttle attempt fuel).attemptsMade ≤ fuel := by
  intro fuel
  induction fuel with
  | zero => intro attempt; simp [goRetry]
  | succ f ih =>
      intro attempt
      unfold goRetry
      split
      · simp
      · split
        · simp
        · split
          · have := ih (attempt + 1)
            simp
            omega
          · simp

theorem goRetry_success_run (aborted : Nat → Bool) (fetchResult : Nat → FetchOutcome)
    (id36 : String) (ra base throttle : Nat) (ha : ∀ j, aborted j = false) :
    ∀ fuel attempt m, m < fuel → attempt + m ≤ ra →
      (∀ j, attempt ≤ j → j < attempt + m → transientOutcome id36 (fetchResult j) = true) →
      fetchResult (attempt + m) = FetchOutcome.ok →
      (goRetry aborted fetchResult id36 ra base throttle attempt fuel).success = true ∧
      (goRetry aborted fetchResult id36 ra base throttle attempt fuel).attemptsMade = m + 1 ∧
      (goRetry aborted fetchResult id36 ra base throttle attempt fuel).backoffWaits =
        (List.range' attempt m).map (fun j => base * 2 ^ (j - 1)) := by
  intro fuel
  induction fuel with
  | zero => intro attempt m hm; omega
  | succ f ih =>
      intro attempt m hm hle htrans hok
      cases m with
      | zero =>
          unfold goRetry
          rw [if_neg (by simp [ha])]
          have : outcomeError id36 (fetchResult attempt) = none := by
            have := hok
            simp at this
            rw [this]
            rfl
          rw [this]
          simp
      | succ m2 =>
          have htr1 : transientOutcome id36 (fetchResult attempt) = true :=
            htrans attempt (le_refl _) (by omega)
          obtain ⟨err, herr, hnr⟩ : ∃ e, outcomeError id36 (fetchResult attempt) = some e ∧
              e.nonRetryable = false := by
            unfold transientOutcome at htr1
            cases hoe : outcomeError id36 (fetchResult attempt) with
            | none => rw [hoe] at htr1; simp at htr1
            | some e => rw [hoe] at htr1; simp at htr1; exact ⟨e, rfl, htr1⟩
          have hrec := ih (attempt + 1) m2 (by omega) (by omega)
            (fun j hj1 hj2 => htrans j (by omega) (by omega))
            (by have : attempt + 1 + m2 = attempt + (m2 + 1) := by omega
                rw [this]; exact hok)
          unfold goRetry
          rw [if_neg (by simp [ha]), herr]
          simp only []
          rw [if_pos (show attempt < ra ∧ err.nonRetryable = false from ⟨by omega, hnr⟩)]
          refine ⟨by simp [hrec.1], by simp [hrec.2.1], ?_⟩
          simp only [hrec.2.2]
          rw [List.range'_succ]
          simp

theorem goRetry_all_transient (aborted : Nat → Bool) (fetchResult : Nat → FetchOutcome)
    (id36 : String) (ra base throttle : Nat) (ha : ∀ j, aborted j = false) :
    ∀ fuel attempt, 1 ≤ attempt → attempt ≤ ra → fuel + attempt = ra + 1 →
      (∀ j, attempt ≤ j → j ≤ ra → transientOutcome id36 (fetchResult j) = true) →
      (goRetry aborted fetchResult id36 ra base throttle attempt fuel).success = false ∧
      (goRetry aborted fetchResult id36 ra base throttle attempt fuel).attemptsMade =
        ra + 1 - attempt ∧
      (goRetry aborted fetchResult id36 ra base throttle attempt fuel).backoffWaits =
        (List.range' attempt (ra - attempt)).map (fun j => base * 2 ^ (j - 1)) := by
  intro fuel
  induction fuel with
  | zero => intro attempt h1 h2 h3; omega
  | succ f ih =>
      intro attempt h1 h2 h3 htrans
      have htr1 : transientOutcome id36 (fetchResult attempt) = true :=
        htrans attempt (le_refl _) h2
      obtain ⟨err, herr, hnr⟩ : ∃ e, outcomeError id36 (fetchResult attempt) = some e ∧
          e.nonRetryable = false := by
        unfold transientOutcome at htr1
        cases hoe : outcomeError id36 (fetchResult attempt) with
        | none => rw [hoe] at htr1; simp at htr1
        | some e => rw [hoe] at htr1; simp at htr1; exact ⟨e, rfl, htr1⟩
      unfold goRetry
      rw [if_neg (by simp [ha]), herr]
      simp only []
      by_cases hlast : attempt < ra
      · rw [if_pos (show attempt < ra ∧ err.nonRetryable = false from ⟨hlast, hnr⟩)]
        have hrec := ih (attempt + 1) (by omega) (by omega) (by omega)
          (fun j hj1 hj2 => htrans j (by omega) hj2)
        refine ⟨by simp [hrec.1], by simp [hrec.2.1]; omega, ?_⟩
        simp only [hrec.2.2]
        have hm : ra - attempt = (ra - (attempt + 1)) + 1 := by omega
        rw [hm, List.range'_succ]
        simp
      · rw [if_neg (show ¬(attempt < ra ∧ err.nonRetryable = false) from
          fun hand => hlast hand.1)]
        have hae : attempt = ra := by omega
        subst hae
        simp

/-- Claim C3: with retryAttempts ≥ 1 and no cancellation, downloadWithRetry
makes at most retryAttempts fetch attempts; each retryable failure on an
attempt j < retryAttempts is followed by a backoff wait of exactly
retryBaseDelayMs * 2^(j-1) milliseconds (the backoffWaits list pairs with
the failed attempts 1..k-1 in order); if the first k-1 attempts fail
retryably and attempt k ≤ retryAttempts succeeds, the call returns success
after exactly k attempts; if all retryAttempts attempts fail retryably,
the call returns final failure after exactly retryAttempts attempts. -/
theorem downloadWithRetry_policy (aborted : Nat → Bool) (fetchResult : Nat → FetchOutcome)
    (id36 : String) (ra base throttle : Nat) (hra : 1 ≤ ra) (ha : ∀ j, aborted j = false) :
    (downloadWithRetry aborted fetchResult id36 ra base throttle).attemptsMade ≤ ra ∧
    (∀ k, 1 ≤ k → k ≤ ra →
      (∀ j, 1 ≤ j → j < k → transientOutcome id36 (fetchResult j) = true) →
      fetchResult k = FetchOutcome.ok →
      (downloadWithRetry aborted fetchResult id36 ra base throttle).success = true ∧
      (downloadWithRetry aborted fetchResult id36 ra base throttle).attemptsMade = k ∧
      (downloadWithRetry aborted fetchResult id36 ra base throttle).backoffWaits =
        (List.range' 1 (k - 1)).map (fun j => base * 2 ^ (j - 1))) ∧
    ((∀ j, 1 ≤ j → j ≤ ra → transientOutcome id36 (fetchResult j) = true) →
      (downloadWithRetry aborted fetchResult id36 ra base throttle).success = false ∧
      (downloadWithRetry aborted fetchResult id36 ra base throttle).attemptsMade = ra ∧
      (downloadWithRetry aborted fetchResult id36 ra base throttle).backoffWaits =
        (List.range' 1 (ra - 1)).map (fun j => base * 2 ^ (j - 1))) := by
  refine ⟨goRetry_attempts_le aborted fetchResult id36 ra base throttle ra 1, ?_, ?_⟩
  · intro k hk1 hk2 htrans hok
    have h := goRetry_success_run aborted fetchResult id36 ra base throttle ha ra 1 (k - 1)
      (by omega) (by omega) (fun j hj1 hj2 => htrans j hj1 (by omega))
      (by have he : 1 + (k - 1) = k := by omega
          rw [he]; exact hok)
    unfold downloadWithRetry
    exact ⟨h.1, by rw [h.2.1]; omega, h.2.2⟩
  · intro htrans
    have h := goRetry_all_transient aborted fetchResult id36 ra base throttle ha ra 1
      (le_refl 1) hra (by omega) (fun j hj1 hj2 => htrans j hj1 hj2)
    unfold downloadWithRetry
    exact ⟨h.1, by rw [h.2.1]; omega, h.2.2⟩

/-- A concrete attempt script: one transport failure, then success. -/
def retryScript : Nat → FetchOutcome :=
  fun j => if j = 1 then FetchOutcome.networkError "socket reset" else FetchOutcome.ok

/-- Witness for C3: under the concrete script the call succeeds on attempt
2 of 3 after a single 500 ms backoff. -/
theorem downloadWithRetry_policy_witness :
    (downloadWithRetry (fun _ => false) retryScript "w1" 3 500 0).success = true ∧
    (downloadWithRetry (fun _ => false) retryScript "w1" 3 500 0).attemptsMade = 2 ∧
    (downloadWithRetry (fun _ => false) retryScript "w1" 3 500 0).backoffWaits = [500] := by
  have h := (downloadWithRetry_policy (fun _ => false) retryScript "w1" 3 500 0
      (by decide) (fun j => rfl)).2.1 2 (by decide) (by decide)
    (fun j hj1 hj2 => by
      have hj : j = 1 := by omega
      subst hj
      decide)
    (by decide)
  exact ⟨h.1, h.2.1, by rw [h.2.2]; decide⟩

/-! ## Orchestrator — downloadService.ts, downloadScreens (lines 140-223)

The concurrent fan-out is modelled by the sequence in which the fetch
units settled, each with its boolean outcome; the throttler guarantees
the completion callbacks that touch the counters never overlap, so one
run is a fold over that settle sequence. -/

/-- The port message vocabulary (types PortMessage, lines 15-66).  The
done payload mirrors DonePayload: total, failed, optional downloadId,
optional processed, optional succeeded. -/
inductive PortMsg
  | statusMsg (message : String)
  | logInfo (message : String)
  | logWarn (message : String)
  | startMsg (total concurrency : Nat)
  | progress (completed total : Nat) (currentId : String) (succeeded failed : Nat)
  | done (total failed : Nat) (downloadId : Option Nat) (processed succeeded : Option Nat)
  | errorMsg (message : String)
  | cancelled
deriving Repr, DecidableEq

/-- The run counters of downloadScreens (lines 153-155). -/
structure RunCounters where
  processed : Nat
  succeeded : Nat
  failed : Nat
deriving Repr, DecidableEq

/-- emitProgress (lines 159-168): the progress payload sends the current
processed counter as completed, together with both outcome counters. -/
def progressMsg (c : RunCounters) (total : Nat) (currentId : String) : PortMsg :=
  PortMsg.progress c.processed total currentId c.succeeded c.failed

/-- The completion callback of one fetch unit (lines 185-198): bump the
counters, log the giving-up warning on failure, and emit one progress
event carrying the cumulative counts. -/
def settleOne (total retryAttempts : Nat) (c : RunCounters) (x : ScreenMeta × Bool) :
    RunCounters × List PortMsg :=
  if x.2 then
    let c2 : RunCounters :=
      { c with succeeded := c.succeeded + 1, processed := c.processed + 1 }
    (c2, [progressMsg c2 total x.1.id36])
  else
    let c2 : RunCounters :=
      { c with failed := c.failed + 1, processed := c.processed + 1 }
    (c2, [PortMsg.logWarn ("Giving up on " ++ x.1.id36 ++ " after " ++
            toString retryAttempts ++ " attempts."),
          progressMsg c2 total x.1.id36])

/-- All completion callbacks of a run, in settle order. -/
def settleAll (total retryAttempts : Nat) (c : RunCounters) :
    List (ScreenMeta × Bool) → RunCounters × List PortMsg
  | [] => (c, [])
  | x :: xs =>
    let r1 := settleOne total retryAttempts c x
    let r2 := settleAll total retryAttempts r1.1 xs
    (r2.1, r1.2 ++ r2.2)

/-- The final counters of a run over the given settle sequence. -/
def runCountersOf (screens : List ScreenMeta) (retryAttempts : Nat)
    (settles : List (ScreenMeta × Bool)) : RunCounters :=
  (settleAll screens.length retryAttempts
    { processed := 0, succeeded := 0, failed := 0 } settles).1

/-- downloadScreens (lines 150-223): the message sequence of one run in
which every submitted unit settled, given the settle order and the sink
outcome.  Note line 213: the done payload sends the succeeded counter in
its total field. -/
def downloadScreens (screens : List ScreenMeta) (retryAttempts : Nat)
    (settles : List (ScreenMeta × Bool)) (sink : Except String (Option Nat)) :
    List PortMsg :=
  let r := settleAll screens.length retryAttempts
    { processed := 0, succeeded := 0, failed := 0 } settles
  PortMsg.statusMsg ("Downloading " ++ toString screens.length ++ " screenshot(s)...") ::
    r.2 ++ [PortMsg.statusMsg "Packaging ZIP archive..."] ++
    (match sink with
     | Except.ok downloadId =>
        [PortMsg.done r.1.succeeded r.1.failed downloadId (some r.1.processed)
          (some r.1.succeeded)]
     | Except.error m => [PortMsg.errorMsg m])

theorem settleOne_counters (total ra : Nat) (c : RunCounters) (x : ScreenMeta × Bool) :
    (settleOne total ra c x).1.processed = c.processed + 1 ∧
    (settleOne total ra c x).1.succeeded + (settleOne total ra c x).1.failed =
      c.succeeded + c.failed + 1 := by
  unfold settleOne
  split <;> simp <;> omega

theorem settleAll_counters (total ra : Nat) :
    ∀ (settles : List (ScreenMeta × Bool)) (c : RunCounters),
      (settleAll total ra c settles).1.processed = c.processed + settles.length ∧
      (settleAll total ra c settles).1.succeeded + (settleAll total ra c settles).1.failed =
        c.succeeded + c.failed + settles.length := by
  intro settles
  induction settles with
  | nil => intro c; simp [settleAll]
  | cons x xs ih =>
      intro c
      have h1 := settleOne_counters total ra c x
      have h2 := ih (settleOne total ra c x).1
      unfold settleAll
      refine ⟨?_, ?_⟩
      · simp only [h2.1, h1.1, List.length_cons]
        omega
      · simp only [h2.2, h1.2, List.length_cons]
        omega

theorem settleOne_progress_sound (total ra : Nat) (c : RunCounters) (x : ScreenMeta × Bool)
    (hc : c.processed = c.succeeded + c.failed) :
    (settleOne total ra c x).1.processed =
      (settleOne total ra c x).1.succeeded + (settleOne total ra c x).1.failed ∧
    ∀ comp tot cid s f, PortMsg.progress comp tot cid s f ∈ (settleOne total ra c x).2 →
      comp = s + f ∧ tot = total := by
  unfold settleOne
  split
  · refine ⟨by simp; omega, ?_⟩
    intro comp tot cid s f hm
    simp [progressMsg] at hm
    obtain ⟨h1, h2, h3, h4, h5⟩ := hm
    subst h1; subst h2; subst h4; subst h5
    simp
    omega
  · refine ⟨by simp; omega, ?_⟩
    intro comp tot cid s f hm
    simp [progressMsg] at hm
    obtain ⟨h1, h2, h3, h4, h5⟩ := hm
    subst h1; subst h2; subst h4; subst h5
    simp
    omega

theorem settleAll_progress_sound (total ra : Nat) :
    ∀ (settles : List (ScreenMeta × Bool)) (c : RunCounters),
      c.processed = c.succeeded + c.failed →
      (settleAll total ra c settles).1.processed =
        (settleAll total ra c settles).1.succeeded +
          (settleAll total ra c settles).1.failed ∧
      ∀ comp tot cid s f,
        PortMsg.progress comp tot cid s f ∈ (settleAll total ra c settles).2 →
        comp = s + f ∧ tot = total := by
  intro settles
  induction settles with
  | nil => intro c hc; simpa [settleAll] using hc
  | cons x xs ih =>
      intro c hc
      have h1 := settleOne_progress_sound total ra c x hc
      have h2 := ih (settleOne total ra c x).1 h1.1
      unfold settleAll
      refine ⟨h2.1, ?_⟩
      intro comp tot cid s f hm
      simp only [List.mem_append] at hm
      rcases hm with hm | hm
      · exact h1.2 comp tot cid s f hm
      · exact h2.2 comp tot cid s f hm

theorem settleAll_no_done (total ra : Nat) :
    ∀ (settles : List (ScreenMeta × Bool)) (c : RunCounters)
      (t fl : Nat) (d : Option Nat) (p sc : Option Nat),
      PortMsg.done t fl d p sc ∉ (settleAll total ra c settles).2 := by
  intro settles
  induction settles with
  | nil => intro c t fl d p sc; simp [settleAll]
  | cons x xs ih =>
      intro c t fl d p sc
      unfold settleAll
      simp only [List.mem_append, not_or]
      refine ⟨?_, ih _ t fl d p sc⟩
      unfold settleOne
      split <;> simp [progressMsg]

/-- Claim C2: at the moment each progress event is emitted the run
counters satisfy processed = succeeded + failed, and the event's
completed field is the processed counter (emitProgress sends completed :=
processed, so in every emitted progress event completed = succeeded +
failed and total is the item count); when the run completes normally —
every submitted fetch unit settled — processed equals the total number
of item descriptors. -/
theorem downloadScreens_progress_invariant (screens : List ScreenMeta) (ra : Nat)
    (settles : List (ScreenMeta × Bool)) (sink : Except String (Option Nat)) :
    (∀ comp tot cid s f,
      PortMsg.progress comp tot cid s f ∈ downloadScreens screens ra settles sink →
      comp = s + f ∧ tot = screens.length) ∧
    (settles.length = screens.length →
      (runCountersOf screens ra settles).processed = screens.length) := by
  constructor
  · intro comp tot cid s f hm
    have hs := settleAll_progress_sound screens.length ra settles
      { processed := 0, succeeded := 0, failed := 0 } rfl
    cases sink with
    | ok d =>
        simp only [downloadScreens] at hm
        simp at hm
        exact hs.2 comp tot cid s f hm
    | error m =>
        simp only [downloadScreens] at hm
        simp at hm
        exact hs.2 comp tot cid s f hm
  · intro h
    unfold runCountersOf
    rw [(settleAll_counters screens.length ra settles
      { processed := 0, succeeded := 0, failed := 0 }).1]
    simpa using h

/-- A concrete item descriptor for the witnesses below. -/
def screenMetaW : ScreenMeta := { id36 := "a1", url := "https://img/a1.png", date := "2020-01-01" }

/-- Witness for C2 at a concrete one-item run: the emitted progress event
satisfies the counter equation and the final processed count is 1. -/
theorem downloadScreens_progress_invariant_witness :
    ((1 : Nat) = 1 + 0 ∧ (1 : Nat) = [screenMetaW].length) ∧
    (runCountersOf [screenMetaW] 3 [(screenMetaW, true)]).processed = 1 :=
  ⟨(downloadScreens_progress_invariant [screenMetaW] 3 [(screenMetaW, true)]
      (Except.ok none)).1 1 1 "a1" 1 0 (by decide),
    (downloadScreens_progress_invariant [screenMetaW] 3 [(screenMetaW, true)]
      (Except.ok none)).2 rfl⟩

/-- Recognizer for done events. -/
def isDoneMsg : PortMsg → Bool
  | .done _ _ _ _ _ => true
  | _ => false

/-- Counterexample to C9 as stated: in a one-item run whose item failed,
the final done event carries total 0 (the succeeded counter, line 213),
not the item-descriptor count 1. -/
theorem downloadScreens_done_total_counterexample :
    (downloadScreens [screenMetaW] 3 [(screenMetaW, false)]
        (Except.ok (some 7))).getLast? =
      some (PortMsg.done 0 1 (some 7) (some 1) (some 0)) ∧
    (0 : Nat) ≠ [screenMetaW].length :=
  ⟨rfl, by decide⟩

/-- Claim C9 (amended): for every run that completes normally (every unit
settled and the sink accepted the archive), exactly one done event is
emitted and it is the last event of the run; it carries succeeded,
failed and processed with processed = succeeded + failed = the number of
item descriptors, and its total field carries the succeeded count — equal
to the item count only when no item failed. -/
theorem downloadScreens_done_event (screens : List ScreenMeta) (ra : Nat)
    (settles : List (ScreenMeta × Bool)) (oid : Option Nat)
    (h : settles.length = screens.length) :
    (downloadScreens screens ra settles (Except.ok oid)).getLast? =
      some (PortMsg.done (runCountersOf screens ra settles).succeeded
        (runCountersOf screens ra settles).failed oid
        (some (runCountersOf screens ra settles).processed)
        (some (runCountersOf screens ra settles).succeeded)) ∧
    (downloadScreens screens ra settles (Except.ok oid)).countP isDoneMsg = 1 ∧
    (runCountersOf screens ra settles).processed =
      (runCountersOf screens ra settles).succeeded +
        (runCountersOf screens ra settles).failed ∧
    (runCountersOf screens ra settles).processed = screens.length := by
  have hshape : downloadScreens screens ra settles (Except.ok oid) =
      (PortMsg.statusMsg ("Downloading " ++ toString screens.length ++
          " screenshot(s)...") ::
        ((settleAll screens.length ra
            { processed := 0, succeeded := 0, failed := 0 } settles).2 ++
          [PortMsg.statusMsg "Packaging ZIP archive..."])) ++
      [PortMsg.done (runCountersOf screens ra settles).succeeded
        (runCountersOf screens ra settles).failed oid
        (some (runCountersOf screens ra settles).processed)
        (some (runCountersOf screens ra settles).succeeded)] := by
    simp [downloadScreens, runCountersOf]
  refine ⟨?_, ?_, ?_, ?_⟩
  · rw [hshape, List.getLast?_concat]
  · rw [hshape]
    have hzero : (settleAll screens.length ra
        { processed := 0, succeeded := 0, failed := 0 } settles).2.countP isDoneMsg = 0 := by
      rw [List.countP_eq_zero]
      intro m hm
      cases m <;> simp [isDoneMsg]
      exact settleAll_no_done screens.length ra settles _ _ _ _ _ _ hm
    simp [List.countP_append, List.countP_cons, hzero, isDoneMsg]
  · exact (settleAll_progress_sound screens.length ra settles
      { processed := 0, succeeded := 0, failed := 0 } rfl).1
  · unfold runCountersOf
    rw [(settleAll_counters screens.length ra settles
      { processed := 0, succeeded := 0, failed := 0 }).1]
    simpa using h

/-- Witness for the amended C9 at a concrete one-item successful run. -/
theorem downloadScreens_done_event_witness :
    (downloadScreens [screenMetaW] 3 [(screenMetaW, true)]
        (Except.ok (some 3))).getLast? =
      some (PortMsg.done 1 0 (some 3) (some 1) (some 1)) := by
  have h := downloadScreens_done_event [screenMetaW] 3 [(screenMetaW, true)] (some 3) rfl
  rw [h.1]
  rfl

/-- Claim C4: an item whose fetch returns HTTP 403 with the
account_trouble classification fails after exactly one attempt with no
backoff wait regardless of remaining attempts; the diagnostic is the
distinct permanently-missing-upstream message, distinguishable from the
exhausted-retry fetch-failure message for every status; and a run over
that single item counts one failure (failed 1, succeeded 0, processed 1)
and still ends in the done terminal event. -/
theorem downloadWithRetry_account_trouble (aborted : Nat → Bool)
    (fetchResult : Nat → FetchOutcome) (id36 : String) (ra base throttle : Nat)
    (hra : 1 ≤ ra) (ha : ∀ j, aborted j = false)
    (h403 : fetchResult 1 = FetchOutcome.httpError 403 (some "account_trouble")) :
    (downloadWithRetry aborted fetchResult id36 ra base throttle).success = false ∧
    (downloadWithRetry aborted fetchResult id36 ra base throttle).attemptsMade = 1 ∧
    (downloadWithRetry aborted fetchResult id36 ra base throttle).backoffWaits = [] ∧
    (downloadWithRetry aborted fetchResult id36 ra base throttle).logs =
      [RetryLog.finalFailure id36 (ErrClass.accountTrouble id36)] ∧
    (∀ status, (ErrClass.accountTrouble id36).message ≠
      (ErrClass.fetchFailed id36 status).message) ∧
    (∀ s : ScreenMeta, ∀ oid : Option Nat,
      (downloadScreens [s] ra
          [(s, (downloadWithRetry aborted fetchResult id36 ra base throttle).success)]
          (Except.ok oid)).getLast? =
        some (PortMsg.done 0 1 oid (some 1) (some 0))) := by
  have herr : outcomeError id36 (fetchResult 1) =
      some (ErrClass.accountTrouble id36) := by
    rw [h403]
    simp [outcomeError, classifyHttp]
  have hmain : downloadWithRetry aborted fetchResult id36 ra base throttle =
      { success := false, sawAbort := false, attemptsMade := 1, backoffWaits := [],
        throttleWait := none,
        logs := [RetryLog.finalFailure id36 (ErrClass.accountTrouble id36)] } := by
    cases ra with
    | zero => omega
    | succ r =>
        unfold downloadWithRetry goRetry
        rw [if_neg (by simp [ha]), herr]
        simp only []
        rw [if_neg (by simp [ErrClass.nonRetryable])]
  refine ⟨by rw [hmain], by rw [hmain], by rw [hmain], by rw [hmain], ?_, ?_⟩
  · intro status heq
    have hd := congrArg String.data heq
    simp only [ErrClass.message, String.data_append] at hd
    simp at hd
  · intro s oid
    rw [hmain]
    rfl

/-- Witness for C4 at a concrete always-account-trouble script. -/
theorem downloadWithRetry_account_trouble_witness :
    (downloadWithRetry (fun _ => false)
        (fun _ => FetchOutcome.httpError 403 (some "account_trouble"))
        "x9" 3 500 0).attemptsMade = 1 ∧
    (ErrClass.accountTrouble "x9").message ≠ (ErrClass.fetchFailed "x9" 500).message :=
  ⟨(downloadWithRetry_account_trouble (fun _ => false)
      (fun _ => FetchOutcome.httpError 403 (some "account_trouble"))
      "x9" 3 500 0 (by decide) (fun j => rfl) rfl).2.1,
    (downloadWithRetry_account_trouble (fun _ => false)
      (fun _ => FetchOutcome.httpError 403 (some "account_trouble"))
      "x9" 3 500 0 (by decide) (fun j => rfl) rfl).2.2.2.2.1 500⟩

/-! ## Orchestrator — DownloadService.run (downloadService.ts lines 84-138) -/

def LARGE_GALLERY_THRESHOLD : Nat := 800

def MIN_SEQUENTIAL_THROTTLE_MS : Nat := 150

/-- The effective settings run passes to downloadScreens. -/
structure EffectiveConfig where
  concurrency : Nat
  throttleDelayMs : Nat
deriving Repr, DecidableEq

/-- Lines 99-104: the derived effective settings.  The requested values
are only read; the derived configuration is a fresh value. -/
def deriveEffective (screenCount concurrency throttleDelayMs : Nat) : EffectiveConfig :=
  if LARGE_GALLERY_THRESHOLD ≤ screenCount ∧ 1 < concurrency then
    { concurrency := 1,
      throttleDelayMs := max throttleDelayMs MIN_SEQUENTIAL_THROTTLE_MS }
  else
    { concurrency := concurrency, throttleDelayMs := throttleDelayMs }

/-- The downgrade notice of lines 105-108. -/
def largeGalleryStatus (screenCount : Nat) : String :=
  "Large gallery detected (" ++ toString screenCount ++
    " screenshots). Switching to sequential mode for stability."

/-- The events run emits for a non-empty screen list before handing off
to downloadScreens (lines 99-119), paired with the effective settings it
hands over. -/
def runPrelude (screenCount concurrency throttleDelayMs : Nat) :
    EffectiveConfig × List PortMsg :=
  let eff := deriveEffective screenCount concurrency throttleDelayMs
  let msgs1 :=
    if LARGE_GALLERY_THRESHOLD ≤ screenCount ∧ 1 < concurrency then
      [PortMsg.statusMsg (largeGalleryStatus screenCount)]
    else []
  let msgs2 :=
    if 0 < eff.throttleDelayMs then
      [PortMsg.logInfo ("Throttle delay set to " ++ toString eff.throttleDelayMs ++
        " ms between downloads.")]
    else []
  (eff, msgs1 ++ msgs2 ++ [PortMsg.startMsg screenCount eff.concurrency])

/-- Claim C8: with at least 800 resolved items and requested concurrency
above 1, the run proceeds with effective concurrency 1 and effective
throttle max(requested, 150), and emits the informational downgrade
status; with fewer items or requested concurrency 1 the requested
settings are kept and no downgrade status is emitted.  The effective
configuration is a value derived from, and separate from, the supplied
values, which are never written. -/
theorem run_large_gallery_downgrade (screenCount concurrency throttleDelayMs : Nat) :
    (800 ≤ screenCount → 1 < concurrency →
      deriveEffective screenCount concurrency throttleDelayMs =
        { concurrency := 1, throttleDelayMs := max throttleDelayMs 150 } ∧
      (runPrelude screenCount concurrency throttleDelayMs).1 =
        deriveEffective screenCount concurrency throttleDelayMs ∧
      PortMsg.statusMsg (largeGalleryStatus screenCount) ∈
        (runPrelude screenCount concurrency throttleDelayMs).2) ∧
    (screenCount < 800 ∨ concurrency ≤ 1 →
      deriveEffective screenCount concurrency throttleDelayMs =
        { concurrency := concurrency, throttleDelayMs := throttleDelayMs } ∧
      PortMsg.statusMsg (largeGalleryStatus screenCount) ∉
        (runPrelude screenCount concurrency throttleDelayMs).2) := by
  constructor
  · intro h1 h2
    have hcond : LARGE_GALLERY_THRESHOLD ≤ screenCount ∧ 1 < concurrency := ⟨h1, h2⟩
    refine ⟨?_, rfl, ?_⟩
    · unfold deriveEffective
      rw [if_pos hcond]
      rfl
    · unfold runPrelude
      simp only [if_pos hcond]
      simp
  · intro h
    have hcond : ¬(LARGE_GALLERY_THRESHOLD ≤ screenCount ∧ 1 < concurrency) := by
      unfold LARGE_GALLERY_THRESHOLD
      omega
    refine ⟨?_, ?_⟩
    · unfold deriveEffective
      rw [if_neg hcond]
    · unfold runPrelude
      simp only [if_neg hcond]
      by_cases ht : 0 < (deriveEffective screenCount concurrency throttleDelayMs).throttleDelayMs
      · simp [if_pos ht]
      · simp [if_neg ht]

/-- Witness for C8: 1000 items at requested concurrency 5 and throttle 0
downgrade to concurrency 1 with a 150 ms floor and the notice is sent. -/
theorem run_large_gallery_downgrade_witness :
    deriveEffective 1000 5 0 = { concurrency := 1, throttleDelayMs := 150 } ∧
    (runPrelude 1000 5 0).1 = deriveEffective 1000 5 0 ∧
    PortMsg.statusMsg (largeGalleryStatus 1000) ∈ (runPrelude 1000 5 0).2 :=
  (run_large_gallery_downgrade 1000 5 0).1 (by decide) (by decide)

/-! ## Background entry point — src/background/index.ts -/

def DEFAULT_CONCURRENCY : Nat := 4

def DEFAULT_SEQUENTIAL_THROTTLE_MS : Nat := 150

def MAX_THROTTLE_MS : Nat := 5000

/-- The result of the JS Number() conversion of a loosely-typed message
field: either not a finite number (undefined, null objects, NaN,
infinities, non-numeric strings), or a finite value. -/
inductive JsNumber
  | notFinite
  | finite (value : ℚ)
deriving DecidableEq

/-- normalizeConcurrency (lines 94-101). -/
def normalizeConcurrency : JsNumber → Int
  | .notFinite => (DEFAULT_CONCURRENCY : Int)
  | .finite x => min 10 (max 1 ⌊x⌋)

/-- normalizeThrottle (lines 103-110). -/
def normalizeThrottle : JsNumber → Int
  | .notFinite => 0
  | .finite x => if x < 0 then 0 else min ⌊x⌋ (MAX_THROTTLE_MS : Int)

/-- startDownload lines 38-42: the effective concurrency and throttle
derived for a run request. -/
def startConfig (sequential : Bool) (concurrencyValue throttleValue : JsNumber) :
    Int × Int :=
  let isSequential := sequential
  let normalized := normalizeConcurrency concurrencyValue
  let c := if isSequential then 1 else normalized
  let t := normalizeThrottle throttleValue
  let t2 := if c = 1 then max t (DEFAULT_SEQUENTIAL_THROTTLE_MS : Int) else t
  (c, t2)

/-- Claim C10: for arbitrary (possibly non-numeric) concurrency and
throttleMs values the handler derives an in-range configuration:
concurrency is 4 when the value is not a finite number and otherwise
floor(value) clamped to [1, 10] (so always within [1, 10]); the throttle
is 0 when the value is not finite or negative and otherwise floor(value)
capped at 5000 (so always within [0, 5000]); and when sequential is
requested, or the effective concurrency is 1, the throttle is raised to
at least 150 ms. -/
theorem startDownload_normalization (sequential : Bool)
    (concurrencyValue throttleValue : JsNumber) :
    normalizeConcurrency JsNumber.notFinite = 4 ∧
    (∀ x : ℚ, normalizeConcurrency (JsNumber.finite x) = min 10 (max 1 ⌊x⌋)) ∧
    (1 ≤ normalizeConcurrency concurrencyValue ∧
      normalizeConcurrency concurrencyValue ≤ 10) ∧
    normalizeThrottle JsNumber.notFinite = 0 ∧
    (∀ x : ℚ, x < 0 → normalizeThrottle (JsNumber.finite x) = 0) ∧
    (∀ x : ℚ, 0 ≤ x → normalizeThrottle (JsNumber.finite x) = min ⌊x⌋ 5000) ∧
    (0 ≤ normalizeThrottle throttleValue ∧ normalizeThrottle throttleValue ≤ 5000) ∧
    (sequential = true ∨ (startConfig sequential concurrencyValue throttleValue).1 = 1 →
      150 ≤ (startConfig sequential concurrencyValue throttleValue).2) := by
  refine ⟨rfl, fun x => rfl, ?_, rfl, ?_, ?_, ?_, ?_⟩
  · cases concurrencyValue with
    | notFinite =>
        constructor <;> norm_num [normalizeConcurrency, DEFAULT_CONCURRENCY]
    | finite x =>
        constructor
        · exact le_min (by norm_num) (le_max_left 1 ⌊x⌋)
        · exact min_le_left 10 (max 1 ⌊x⌋)
  · intro x hx
    unfold normalizeThrottle
    simp only []
    rw [if_pos hx]
  · intro x hx
    unfold normalizeThrottle
    simp only []
    rw [if_neg (by exact not_lt.mpr hx)]
    norm_num [MAX_THROTTLE_MS]
  · cases throttleValue with
    | notFinite => constructor <;> norm_num [normalizeThrottle]
    | finite x =>
        unfold normalizeThrottle
        simp only []
        by_cases hx : x < 0
        · rw [if_pos hx]
          constructor <;> norm_num
        · rw [if_neg hx]
          constructor
          · exact le_min (Int.floor_nonneg.mpr (not_lt.mp hx)) (by norm_num [MAX_THROTTLE_MS])
          · exact le_trans (min_le_right _ _) (by norm_num [MAX_THROTTLE_MS])
  · intro h
    cases sequential with
    | true =>
        simp [startConfig, DEFAULT_SEQUENTIAL_THROTTLE_MS]
    | false =>
        rcases h with h | h
        · cases h
        · have hc : normalizeConcurrency concurrencyValue = 1 := by
            simpa [startConfig] using h
          simp [startConfig, DEFAULT_SEQUENTIAL_THROTTLE_MS, hc]

/-- Witness for C10: a negative throttle normalizes to 0, and a
sequential request raises the effective throttle to at least 150 ms. -/
theorem startDownload_normalization_witness :
    normalizeThrottle (JsNumber.finite (-3)) = 0 ∧
    150 ≤ (startConfig true (JsNumber.finite 5) (JsNumber.finite 0)).2 :=
  ⟨(startDownload_normalization true (JsNumber.finite 5)
      (JsNumber.finite 0)).2.2.2.2.1 (-3) (by norm_num),
    (startDownload_normalization true (JsNumber.finite 5)
      (JsNumber.finite 0)).2.2.2.2.2.2.2 (Or.inl rfl)⟩

end LightshotGallery
